import Mathlib

/-!
Verification development for the ghidra-frida state-synchronization engine.

The Python sources (`arch.py`, `commands.py`, `util.py`) are shallowly
embedded: pure functions become Lean functions, Python exceptions become
`Except`, Python dicts become association lists, and the trace-store calls
made by the synchronization callbacks are reified as lists of `TraceOp`
values in the order the source emits them.  Machine integers are `Int`/`Nat`
(Python integers are unbounded).  Attribute values passed to `set_value` are
not needed by any property below, so `TraceOp.setValue` records the object
path and the attribute name only.
-/

namespace GhidraFrida

/-! ### String helpers (Python `in`, `startswith`, `endswith`) -/

/-- Character-list version of "first list is an initial segment of the
second" (used to express the Python string operators). -/
def chPre : List Char → List Char → Bool
  | [], _ => true
  | _ :: _, [] => false
  | a :: as, b :: bs => a == b && chPre as bs

/-- Substring test over character lists. -/
def chSub (n : List Char) : List Char → Bool
  | [] => chPre n []
  | c :: cs => chPre n (c :: cs) || chSub n cs

/-- Python `needle in hay` on strings. -/
def pyIn (needle hay : String) : Bool := chSub needle.data hay.data

/-- Python `s.startswith(p)`. -/
def pyStarts (p s : String) : Bool := chPre p.data s.data

/-- Python `s.endswith(p)`. -/
def pyEnds (p s : String) : Bool := chPre p.data.reverse s.data.reverse

/-- Strip a leading fragment from a character list, or fail. -/
def dropPre : List Char → List Char → Option (List Char)
  | [], s => some s
  | _ :: _, [] => none
  | p :: ps, c :: cs => if p == c then dropPre ps cs else none

/-! ### Python `sorted` with an integer key

The Python builtin `sorted` is a stable ascending sort.  A stable insertion sort
(each element is placed after all earlier elements of equal key) computes
the same permutation. -/

def insSorted (key : String → Nat) (x : String) : List String → List String
  | [] => [x]
  | y :: ys => if key y ≤ key x then y :: insSorted key x ys else x :: y :: ys

def pySorted (key : String → Nat) (l : List String) : List String :=
  l.foldl (fun acc x => insSorted key x acc) []

/-! ### Python dicts as association lists -/

def alistGet {α : Type} : List (String × α) → String → Option α
  | [], _ => none
  | (k2, v) :: rest, k => if k == k2 then some v else alistGet rest k

/-- Dict lookup with `Optional[str]` keys (`compiler_map` values). -/
def oalistGet {α : Type} : List (Option String × α) → Option String → Option α
  | [], _ => none
  | (k2, v) :: rest, k => if k == k2 then some v else oalistGet rest k

theorem alistGet_mem {α : Type} :
    ∀ (m : List (String × α)) (k : String) (v : α),
      alistGet m k = some v → (k, v) ∈ m := by
  intro m
  induction m with
  | nil => intro k v h; simp [alistGet] at h
  | cons p rest ih =>
    intro k v h
    obtain ⟨k2, v2⟩ := p
    by_cases hk : k == k2
    · simp only [alistGet, hk, if_pos] at h
      cases h
      have : k = k2 := eq_of_beq hk
      subst this
      exact List.mem_cons_self _ _
    · simp only [alistGet, hk] at h
      simp only [Bool.false_eq_true, if_false] at h
      exact List.mem_cons_of_mem _ (ih k v h)

/-! ### `arch.py`: static tables -/

def language_map : List (String × List String) := [
  ("aarch64", ["AARCH64:BE:64:v8A", "AARCH64:LE:64:AppleSilicon", "AARCH64:LE:64:v8A"]),
  ("aarch64:ilp32", ["AARCH64:BE:32:ilp32", "AARCH64:LE:32:ilp32", "AARCH64:LE:64:AppleSilicon"]),
  ("arm_any", ["ARM:BE:32:v8", "ARM:BE:32:v8T", "ARM:LE:32:v8", "ARM:LE:32:v8T"]),
  ("armv2", ["ARM:BE:32:v4", "ARM:LE:32:v4"]),
  ("armv2a", ["ARM:BE:32:v4", "ARM:LE:32:v4"]),
  ("armv3", ["ARM:BE:32:v4", "ARM:LE:32:v4"]),
  ("armv3m", ["ARM:BE:32:v4", "ARM:LE:32:v4"]),
  ("armv4", ["ARM:BE:32:v4", "ARM:LE:32:v4"]),
  ("armv4t", ["ARM:BE:32:v4t", "ARM:LE:32:v4t"]),
  ("armv5", ["ARM:BE:32:v5", "ARM:LE:32:v5"]),
  ("armv5t", ["ARM:BE:32:v5t", "ARM:LE:32:v5t"]),
  ("armv5tej", ["ARM:BE:32:v5t", "ARM:LE:32:v5t"]),
  ("armv6", ["ARM:BE:32:v6", "ARM:LE:32:v6"]),
  ("armv6-m", ["ARM:BE:32:Cortex", "ARM:LE:32:Cortex"]),
  ("armv6k", ["ARM:BE:32:Cortex", "ARM:LE:32:Cortex"]),
  ("armv6kz", ["ARM:BE:32:Cortex", "ARM:LE:32:Cortex"]),
  ("armv6s-m", ["ARM:BE:32:Cortex", "ARM:LE:32:Cortex"]),
  ("armv7", ["ARM:BE:32:v7", "ARM:LE:32:v7"]),
  ("armv7e-m", ["ARM:LE:32:Cortex"]),
  ("armv8-a", ["ARM:BE:32:v8", "ARM:LE:32:v8"]),
  ("armv8-m.base", ["ARM:BE:32:v8", "ARM:LE:32:v8"]),
  ("armv8-m.main", ["ARM:BE:32:v8", "ARM:LE:32:v8"]),
  ("armv8-r", ["ARM:BE:32:v8", "ARM:LE:32:v8"]),
  ("armv8.1-m.main", ["ARM:BE:32:v8", "ARM:LE:32:v8"]),
  ("avr:107", ["avr8:LE:24:xmega"]),
  ("avr:31", ["avr8:LE:16:default"]),
  ("avr:51", ["avr8:LE:16:atmega256"]),
  ("avr:6", ["avr8:LE:16:atmega256"]),
  ("hppa2.0w", ["pa-risc:BE:32:default"]),
  ("i386", ["x86:LE:32:default"]),
  ("i386:intel", ["x86:LE:32:default"]),
  ("i386:x86-64", ["x86:LE:64:default"]),
  ("i386:x86-64:intel", ["x86:LE:64:default"]),
  ("i8086", ["x86:LE:16:Protected Mode", "x86:LE:16:Real Mode"]),
  ("iwmmxt", ["ARM:BE:32:v7", "ARM:BE:32:v8", "ARM:BE:32:v8T", "ARM:LE:32:v7", "ARM:LE:32:v8", "ARM:LE:32:v8T"]),
  ("m68hc12", ["HC-12:BE:16:default"]),
  ("m68k", ["68000:BE:32:default"]),
  ("m68k:68020", ["68000:BE:32:MC68020"]),
  ("m68k:68030", ["68000:BE:32:MC68030"]),
  ("m9s12x", ["HCS-12:BE:24:default", "HCS-12X:BE:24:default"]),
  ("mips:4000", ["MIPS:BE:32:default", "MIPS:LE:32:default"]),
  ("mips:5000", ["MIPS:BE:64:64-32addr", "MIPS:BE:64:default", "MIPS:LE:64:64-32addr", "MIPS:LE:64:default"]),
  ("mips:micromips", ["MIPS:BE:32:micro"]),
  ("msp:430X", ["TI_MSP430:LE:16:default"]),
  ("powerpc:403", ["PowerPC:BE:32:4xx", "PowerPC:LE:32:4xx"]),
  ("powerpc:MPC8XX", ["PowerPC:BE:32:MPC8270", "PowerPC:BE:32:QUICC", "PowerPC:LE:32:QUICC"]),
  ("powerpc:common", ["PowerPC:BE:32:default", "PowerPC:LE:32:default"]),
  ("powerpc:common64", ["PowerPC:BE:64:64-32addr", "PowerPC:BE:64:default", "PowerPC:LE:64:64-32addr", "PowerPC:LE:64:default"]),
  ("powerpc:e500", ["PowerPC:BE:32:e500", "PowerPC:LE:32:e500"]),
  ("powerpc:e500mc", ["PowerPC:BE:64:A2ALT", "PowerPC:LE:64:A2ALT"]),
  ("powerpc:e500mc64", ["PowerPC:BE:64:A2-32addr", "PowerPC:BE:64:A2ALT-32addr", "PowerPC:LE:64:A2-32addr", "PowerPC:LE:64:A2ALT-32addr"]),
  ("riscv:rv32", ["RISCV:LE:32:RV32G", "RISCV:LE:32:RV32GC", "RISCV:LE:32:RV32I", "RISCV:LE:32:RV32IC", "RISCV:LE:32:RV32IMC", "RISCV:LE:32:default"]),
  ("riscv:rv64", ["RISCV:LE:64:RV64G", "RISCV:LE:64:RV64GC", "RISCV:LE:64:RV64I", "RISCV:LE:64:RV64IC", "RISCV:LE:64:default"]),
  ("sh4", ["SuperH4:BE:32:default", "SuperH4:LE:32:default"]),
  ("sparc:v9b", ["sparc:BE:32:default", "sparc:BE:64:default"]),
  ("x86", ["x86:LE:32:default"]),
  ("x64", ["x86:LE:64:default"]),
  ("xscale", ["ARM:BE:32:v6", "ARM:LE:32:v6"]),
  ("z80", ["z80:LE:16:default", "z8401x:LE:16:default"])
]

def data64_compiler_map : List (Option String × String) := [(none, "pointer64")]

def x86_compiler_map : List (Option String × String) := [
  (some "linux", "gcc"),
  (some "windows", "windows"),
  (some "Cygwin", "Visual Studio")
]

def compiler_map : List (String × List (Option String × String)) := [
  ("DATA:BE:64:default", data64_compiler_map),
  ("DATA:LE:64:default", data64_compiler_map),
  ("x86:LE:32:default", x86_compiler_map),
  ("x86:LE:64:default", x86_compiler_map)
]

/-! ### `arch.py`: language and compiler resolution

`compute_ghidra_language` reads the `ghidra-language` convenience variable
(`"auto"` when unset), the raw architecture from the target and the
resolved endianness; those three are passed here as arguments. -/

def lebeOf (endian : String) : String := if endian == "big" then ":BE:" else ":LE:"

/-- Python sort key: 0 when the id ends with the default tag, else its length. -/
def langSortKey (l : String) : Nat := if pyEnds ":default" l then 0 else l.length

def compute_ghidra_language (langVar arch endian : String) : String :=
  if langVar != "auto" then langVar
  else
    let lebe := lebeOf endian
    match alistGet language_map arch with
    | none => "DATA" ++ lebe ++ "64:default"
    | some langs =>
      match pySorted langSortKey (langs.filter (fun l => pyIn lebe l)) with
      | [] => "DATA" ++ lebe ++ "64:default"
      | m :: _ => m

/-- `compute_ghidra_compiler`: the `ghidra-compiler` convenience variable and
the resolved OS/ABI are passed as arguments. -/
def compute_ghidra_compiler (compVar : String) (osabi : Option String)
    (lang : String) : String :=
  if compVar != "auto" then compVar
  else
    match alistGet compiler_map lang with
    | none => "default"
    | some cmap =>
      match oalistGet cmap osabi with
      | some c => c
      | none =>
        match oalistGet cmap none with
        | some c => c
        | none => "default"

/-! ### `arch.py`: memory mappers -/

structure Address where
  space : String
  offset : Int
deriving DecidableEq

/-- Tell apart `Except.error` (a raised Python exception) from `Except.ok`. -/
def exceptIsError {ε α : Type} : Except ε α → Bool
  | .error _ => true
  | .ok _ => false

structure DefaultMemoryMapper where
  defaultSpace : String
deriving DecidableEq

def DefaultMemoryMapper.map (m : DefaultMemoryMapper) (proc : Int)
    (offset : Int) : String × Address :=
  let space := m.defaultSpace
  (m.defaultSpace, ⟨space, offset⟩)

/-- `map_back` raises `ValueError` when the space does not match. -/
def DefaultMemoryMapper.map_back (m : DefaultMemoryMapper) (proc : Int)
    (address : Address) : Except String Int :=
  if address.space == m.defaultSpace then .ok address.offset
  else .error ("Address " ++ address.space ++ toString address.offset ++
               " is not in process " ++ toString proc)

def DEFAULT_MEMORY_MAPPER : DefaultMemoryMapper := ⟨"ram"⟩

/-- The source initializes `memory_mappers` to an empty dict: the registry is empty. -/
def memory_mappers : List (String × DefaultMemoryMapper) := []

def compute_memory_mapper (lang : String) : DefaultMemoryMapper :=
  match alistGet memory_mappers lang with
  | none => DEFAULT_MEMORY_MAPPER
  | some m => m

/-! ### `arch.py`: register mappers -/

structure RegVal where
  name : String
  value : List Nat
deriving DecidableEq

/-- Python `value.to_bytes(n, "big")` for an in-range value. -/
def toBytesBE (n : Nat) (v : Nat) : List Nat :=
  (List.range n).map (fun i => v / 256 ^ (n - 1 - i) % 256)

/-- Python default string formatting of an optional string: None renders as the text None. -/
def fmtOpt : Option String → String
  | none => "None"
  | some s => s

namespace DefaultRegisterMapper

def map_name (proc : Int) (name : String) : String := name

/-- `DefaultRegisterMapper.map_value`.  The conversion
`value.to_bytes(8, "big")` raises `OverflowError` for a negative value or
one that does not fit in 8 bytes; the handler re-raises `ValueError`.  The
`self.map_name` call dispatches dynamically, so the resolved method is a
parameter. -/
def map_value_with (mapName : Option String → String) (proc : Int)
    (name : Option String) (value : Int) : Except String RegVal :=
  if 0 ≤ value ∧ value < 2 ^ 64 then
    .ok ⟨mapName name, toBytesBE 8 value.toNat⟩
  else
    .error ("Cannot convert " ++ fmtOpt name ++ "s value: " ++ toString value)

def map_value (proc : Int) (name : Option String) (value : Int) :
    Except String RegVal :=
  map_value_with (fun n => map_name proc (fmtOpt n)) proc name value

def map_name_back (proc : Int) (name : String) : String := name

end DefaultRegisterMapper

namespace Intel_x86_64_RegisterMapper

def map_name (proc : Int) (name : Option String) : String :=
  match name with
  | none => "UNKNOWN"
  | some n =>
    if n == "efl" then "rflags"
    else if pyStarts "zmm" n then "ymm" ++ String.mk (n.data.drop 3)
    else DefaultRegisterMapper.map_name proc n

/-- `rv = super().map_value(...)`, then the `ymm` width check; the Python
slice `rv.value[-32:]` keeps the last 32 bytes. -/
def map_value (proc : Int) (name : Option String) (value : Int) :
    Except String RegVal :=
  match DefaultRegisterMapper.map_value_with (map_name proc) proc name value with
  | .error e => .error e
  | .ok rv =>
    if pyStarts "ymm" rv.name ∧ rv.value.length > 32 then
      .ok ⟨rv.name, rv.value.drop (rv.value.length - 32)⟩
    else .ok rv

/-- `map_name_back` returns a value only for `rflags`; every other name
falls off the end of the function, i.e. Python returns `None`. -/
def map_name_back (proc : Int) (name : String) : Option String :=
  if name == "rflags" then some "eflags" else none

end Intel_x86_64_RegisterMapper

/-- The concrete mapper instances that `compute_register_mapper` can hand
out (the big- and little-endian `DefaultRegisterMapper` instances, and
the registered `Intel_x86_64_RegisterMapper()`). -/
inductive RegisterMapperRef where
  | defaultMapper (byte_order : String)
  | intel_x86_64
deriving DecidableEq

def DEFAULT_BE_REGISTER_MAPPER : RegisterMapperRef := .defaultMapper "big"
def DEFAULT_LE_REGISTER_MAPPER : RegisterMapperRef := .defaultMapper "little"

def register_mappers : List (String × RegisterMapperRef) :=
  [("x86:LE:64:default", .intel_x86_64)]

/-- The final `return register_mappers[lang]` of the source raises
`KeyError` when `lang` is absent and neither endianness tag matched. -/
def compute_register_mapper (lang : String) : Except String RegisterMapperRef :=
  match alistGet register_mappers lang with
  | some m => .ok m
  | none =>
    if pyIn ":BE:" lang then .ok DEFAULT_BE_REGISTER_MAPPER
    else if pyIn ":LE:" lang then .ok DEFAULT_LE_REGISTER_MAPPER
    else .error ("KeyError: " ++ lang)

/-! ### `commands.py`: reified trace-store calls

Each synchronization callback is embedded as a function from its decoded
query reply to the list of trace-store calls it performs, in source order.
`setValue` records the object path and attribute name (the attribute
values themselves are not needed by any claim).  Writes to
`util.current_state` are in-process bookkeeping, not store calls, and are
not reified. -/

inductive TraceOp where
  | createObject (path : String)
  | setValue (path : String) (key : String)
  | insertObj (path : String)
  | retainValues (path : String) (keys : List String)
  | createOverlaySpace (base : String) (space : String)
  | putRegisters (space : String)
deriving DecidableEq

def PAGE_SIZE : Int := 4096

/-! Path patterns, with the format arguments already rendered to strings
(`sid`, `pid`, `tid` and the element keys are rendered by Python format). -/

def SESSION_PATTERN (sid : String) : String := "Sessions[" ++ sid ++ "]"
def PROCESS_PATTERN (sid pid : String) : String :=
  SESSION_PATTERN sid ++ ".Processes[" ++ pid ++ "]"
def THREADS_PATTERN (sid pid : String) : String :=
  PROCESS_PATTERN sid pid ++ ".Threads"
def THREAD_KEY_PATTERN (tid : String) : String := "[" ++ tid ++ "]"
def THREAD_PATTERN (sid pid tid : String) : String :=
  THREADS_PATTERN sid pid ++ THREAD_KEY_PATTERN tid
def REGS_PATTERN (sid pid tid : String) : String :=
  THREAD_PATTERN sid pid tid ++ ".Registers"
def REGIONS_PATTERN (sid pid : String) : String :=
  PROCESS_PATTERN sid pid ++ ".Memory"
def REGION_KEY_PATTERN (start : String) : String := "[" ++ start ++ "]"
def REGION_PATTERN (sid pid start : String) : String :=
  REGIONS_PATTERN sid pid ++ REGION_KEY_PATTERN start
def MODULES_PATTERN (sid pid : String) : String :=
  PROCESS_PATTERN sid pid ++ ".Modules"
def MODULE_KEY_PATTERN (modpath : String) : String := "[" ++ modpath ++ "]"
def MODULE_PATTERN (sid pid modpath : String) : String :=
  MODULES_PATTERN sid pid ++ MODULE_KEY_PATTERN modpath
def CLASSES_PATTERN (sid pid : String) : String :=
  PROCESS_PATTERN sid pid ++ ".Classes"
def CLASS_KEY_PATTERN (path : String) : String := "[" ++ path ++ "]"
def CLASS_PATTERN (sid pid path : String) : String :=
  CLASSES_PATTERN sid pid ++ CLASS_KEY_PATTERN path
def METHODS_PATTERN (sid pid path : String) : String :=
  CLASS_PATTERN sid pid path ++ ".Methods"
def METHOD_KEY_PATTERN (name : String) : String := "[" ++ name ++ "]"
def METHOD_PATTERN (sid pid path name : String) : String :=
  METHODS_PATTERN sid pid path ++ METHOD_KEY_PATTERN name

/-! Decoded query-reply records.  The source parses the textual base
address with `int(base, 0)` wherever it maps addresses; the records carry
that parsed value alongside the original string. -/

structure RegionRecord where
  base : String
  baseOff : Int
  size : Nat
  protection : String
  file : Option String
deriving DecidableEq

structure ModuleRecord where
  name : String
  path : String
  base : String
  baseOff : Int
  size : Nat
deriving DecidableEq

structure ThreadRecord where
  tid : Int
  name : Option String
  state : Option String
  context : List (String × Int)
deriving DecidableEq

structure ClassRecord where
  name : Option String
  path : Option String
  methods : Option (List String)
deriving DecidableEq

/-- Body of the `put_regions_callback` loop for one region record. -/
def put_regions_step (sid pid : String) (pidNum : Int)
    (mapper : DefaultMemoryMapper) (acc : List TraceOp × List String)
    (r : RegionRecord) : List TraceOp × List String :=
  let rpath := REGION_PATTERN sid pid r.base
  let ops := acc.1 ++ [.createObject rpath]
  let keys := acc.2 ++ [REGION_KEY_PATTERN r.base]
  let bb := (mapper.map pidNum r.baseOff).1
  let ba := (mapper.map pidNum r.baseOff).2
  let ops := ops ++ (if bb ≠ ba.space then [.createOverlaySpace bb ba.space] else [])
  let ops := ops ++ [.setValue rpath "_offset", .setValue rpath "_range",
                     .setValue rpath "Base", .setValue rpath "Size",
                     .setValue rpath "Protection"]
  let ops := ops ++ (match r.file with
    | some _ => [TraceOp.setValue rpath "File"]
    | none => [])
  let ops := ops ++ [.setValue rpath "_display", .insertObj rpath]
  (ops, keys)

/-- `put_regions_callback`: one object per region, key accumulated per
record, a single `retain_values` on the `Memory` container at the end. -/
def put_regions_callback (sid pid : String) (pidNum : Int)
    (mapper : DefaultMemoryMapper) (values : List RegionRecord) :
    List TraceOp :=
  let acc := values.foldl (put_regions_step sid pid pidNum mapper) ([], [])
  acc.1 ++ [.retainValues (REGIONS_PATTERN sid pid) acc.2]

/-- `put_modules_callback`. -/
def put_modules_callback (sid pid : String) (pidNum : Int)
    (mapper : DefaultMemoryMapper) (values : List ModuleRecord) :
    List TraceOp :=
  let step := fun (acc : List TraceOp × List String) (m : ModuleRecord) =>
    let mpath := MODULE_PATTERN sid pid m.path
    let ops := acc.1 ++ [.createObject mpath]
    let keys := acc.2 ++ [ MODULE_KEY_PATTERN m.path]
    let bb := (mapper.map pidNum m.baseOff).1
    let ba := (mapper.map pidNum m.baseOff).2
    let ops := ops ++ (if bb ≠ ba.space then [.createOverlaySpace bb ba.space] else [])
    let ops := ops ++ [.setValue mpath "_range", .setValue mpath "_module_name",
                       .setValue mpath "Name", .setValue mpath "Path",
                       .setValue mpath "Base", .setValue mpath "Size",
                       .setValue mpath "_display", .insertObj mpath,
                       .createObject (mpath ++ ".Sections"), .insertObj (mpath ++ ".Sections"),
                       .createObject (mpath ++ ".Exports"), .insertObj (mpath ++ ".Exports"),
                       .createObject (mpath ++ ".Imports"), .insertObj (mpath ++ ".Imports"),
                       .createObject (mpath ++ ".Symbols"), .insertObj (mpath ++ ".Symbols"),
                       .createObject (mpath ++ ".Dependencies"), .insertObj (mpath ++ ".Dependencies")]
    (ops, keys)
  let acc := values.foldl step ([], [])
  acc.1 ++ [.retainValues (MODULES_PATTERN sid pid) acc.2]

/-- Dynamic dispatch of `map_value` over the mapper instance. -/
def RegisterMapperRef.map_value : RegisterMapperRef → Int → Option String →
    Int → Except String RegVal
  | .defaultMapper _, p, n, v => DefaultRegisterMapper.map_value p n v
  | .intel_x86_64, p, n, v => Intel_x86_64_RegisterMapper.map_value p n v

/-- `put_threads_callback`: per-register `set_value` always happens;
`map_value` failures are swallowed (`except: pass`) so a failing register
is only missing from the `put_registers` batch. -/
def put_threads_callback (sid pid : String) (pidNum : Int)
    (rmapper : RegisterMapperRef) (values : List ThreadRecord) :
    List TraceOp :=
  let step := fun (acc : List TraceOp × List String) (t : ThreadRecord) =>
    let tpath := THREAD_PATTERN sid pid (toString t.tid)
    let ops := acc.1 ++ [.createObject tpath]
    let keys := acc.2 ++ [THREAD_KEY_PATTERN (toString t.tid)]
    let ops := ops ++ [.setValue tpath "_tid", .setValue tpath "Name",
                       .setValue tpath "_short_display", .setValue tpath "_display",
                       .setValue tpath "_state", .insertObj tpath]
    let space := REGS_PATTERN sid pid (toString t.tid)
    let ops := ops ++ [.createOverlaySpace "register" space,
                       .createObject space, .insertObj space]
    let ops := ops ++ t.context.map (fun rv => TraceOp.setValue space rv.1)
    let _regvals := t.context.filterMap
      (fun rv => (rmapper.map_value pidNum (some rv.1) rv.2).toOption)
    let ops := ops ++ [.putRegisters space,
                       .createObject (tpath ++ ".Stack"), .insertObj (tpath ++ ".Stack")]
    (ops, keys)
  let acc := values.foldl step ([], [])
  acc.1 ++ [.retainValues (THREADS_PATTERN sid pid) acc.2]

/-- `put_loaded_classes_callback`.  Note two details of the source, kept
as-is here: the method keys are appended to the outer `keys` list (not to
`mkeys`), and the `Methods` container is retained with the still-empty
`mkeys`. -/
def put_loaded_classes_callback (sid pid : String) (values : List ClassRecord) :
    List TraceOp :=
  let step := fun (acc : List TraceOp × List String) (c : ClassRecord) =>
    let key : Option String :=
      match c.path with
      | some p => some p
      | none => match c.name with
                | some n => some n
                | none => none
    let cpath := CLASS_PATTERN sid pid (fmtOpt key)
    let ops := acc.1 ++ [.createObject cpath]
    let keys := acc.2 ++ [CLASS_KEY_PATTERN (fmtOpt key)]
    let ops := ops ++ [.setValue cpath "Name", .setValue cpath "Path",
                       .setValue cpath "_display", .insertObj cpath]
    let mkeys : List String := []
    match c.methods with
    | none => (ops, keys)
    | some ms =>
      let inner := ms.foldl (fun (acc2 : List TraceOp × List String) m =>
        (acc2.1 ++ [TraceOp.createObject (METHOD_PATTERN sid pid (fmtOpt key) m),
                    TraceOp.insertObj (METHOD_PATTERN sid pid (fmtOpt key) m)],
         acc2.2 ++ [METHOD_KEY_PATTERN m])) (ops, keys)
      (inner.1 ++ [.retainValues (METHODS_PATTERN sid pid (fmtOpt key)) mkeys],
       inner.2)
  let acc := values.foldl step ([], [])
  acc.1 ++ [.retainValues (CLASSES_PATTERN sid pid) acc.2]

/-- `map_address` from `commands.py`, with the overlay-creation call
reified. -/
def map_address (mapper : DefaultMemoryMapper) (pidNum : Int) (address : Int) :
    List TraceOp × (String × Address) :=
  let base := (mapper.map pidNum address).1
  let addr := (mapper.map pidNum address).2
  ((if base ≠ addr.space then [.createOverlaySpace base addr.space] else []),
   (base, addr))

/-! ### `commands.py`: transaction discipline and the put commands -/

structure SyncState where
  client : Option Unit
  trace : Option Unit
  tx : Option Unit
deriving DecidableEq

/-- `State.require_tx`: raises `RuntimeError("No transaction")`. -/
def require_tx (st : SyncState) : Except String Unit :=
  match st.tx with
  | none => .error "No transaction"
  | some tx => .ok tx

/-- An observable interaction of a put command: a scripted query sent to
the target, or a trace-store call. -/
inductive Effect where
  | query (name : String)
  | store (op : TraceOp)
deriving DecidableEq

def ghidra_trace_put_regions (st : SyncState) (sid pid : String) (pidNum : Int)
    (mapper : DefaultMemoryMapper) (targetValues : List RegionRecord) :
    Except String (List Effect) :=
  match require_tx st with
  | .error e => .error e
  | .ok _ =>
    .ok (Effect.query "list_ranges" ::
         (put_regions_callback sid pid pidNum mapper targetValues).map Effect.store)

def ghidra_trace_put_modules (st : SyncState) (sid pid : String) (pidNum : Int)
    (mapper : DefaultMemoryMapper) (targetValues : List ModuleRecord) :
    Except String (List Effect) :=
  match require_tx st with
  | .error e => .error e
  | .ok _ =>
    .ok (Effect.query "list_modules" ::
         (put_modules_callback sid pid pidNum mapper targetValues).map Effect.store)

def ghidra_trace_put_threads (st : SyncState) (sid pid : String) (pidNum : Int)
    (rmapper : RegisterMapperRef) (targetValues : List ThreadRecord) :
    Except String (List Effect) :=
  match require_tx st with
  | .error e => .error e
  | .ok _ =>
    .ok (Effect.query "list_threads" ::
         (put_threads_callback sid pid pidNum rmapper targetValues).map Effect.store)

/-- `ghidra_trace_putmem`: after the transaction check the length is
clamped up to one page; `putmem` returns silently when `address is None`,
otherwise it submits the read-memory script. -/
def ghidra_trace_putmem (st : SyncState) (address : Option Int) (length : Int) :
    Except String (List Effect) :=
  match require_tx st with
  | .error e => .error e
  | .ok _ =>
    let len := if length < PAGE_SIZE then PAGE_SIZE else length
    match address with
    | none => .ok []
    | some _ =>
      let _ := len
      .ok [Effect.query "read_memory"]

def ghidra_trace_putreg (st : SyncState) : Except String (List Effect) :=
  match require_tx st with
  | .error e => .error e
  | .ok _ => .ok [Effect.query "list_threads"]

/-! ### Observation helpers for the retention claims -/

/-- All key sets passed to `retain_values` on a given container. -/
def retainsOf (ops : List TraceOp) (container : String) : List (List String) :=
  ops.filterMap (fun op => match op with
    | .retainValues c ks => if c == container then some ks else none
    | _ => none)

/-- A rendered element key: a single bracketed token. -/
def isElementKey (s : List Char) : Bool :=
  s.count '[' == 1 && s.count ']' == 1 &&
  (match s with | [] => false | c :: _ => c == '[') &&
  (match s.reverse with | [] => false | c :: _ => c == ']')

/-- The element keys written in a run: keys of objects created as direct
bracketed children of the container. -/
def elementKeysWritten (ops : List TraceOp) (container : String) : List String :=
  ops.filterMap (fun op => match op with
    | .createObject p =>
      match dropPre container.data p.data with
      | some rest => if isElementKey rest then some (String.mk rest) else none
      | none => none
    | _ => none)

/-- Whether a run requested creation of any overlay address space. -/
def hasOverlayOp (ops : List TraceOp) : Bool :=
  ops.any (fun op => match op with
    | .createOverlaySpace _ _ => true
    | _ => false)

/-- The endianness tag opposite to the resolved endianness. -/
def antiLebeOf (endian : String) : String := if endian == "big" then ":LE:" else ":BE:"

/-! ### Shared lemmas -/

set_option maxRecDepth 8192 in
/-- For every table entry and endianness, the resolved language carries the
matching endianness tag and not the opposite one (checked over the whole
static table). -/
theorem table_lang_endian_ok : ∀ p ∈ language_map, ∀ e ∈ (["big", "little"] : List String),
    pyIn (lebeOf e) (compute_ghidra_language "auto" p.1 e) = true ∧
    pyIn (antiLebeOf e) (compute_ghidra_language "auto" p.1 e) = false := by decide

theorem regions_step_preserves (sid pid : String) (pidNum : Int)
    (mapper : DefaultMemoryMapper) (acc : List TraceOp × List String)
    (r : RegionRecord) (h : hasOverlayOp acc.1 = false) :
    hasOverlayOp (put_regions_step sid pid pidNum mapper acc r).1 = false := by
  simp [put_regions_step, hasOverlayOp, DefaultMemoryMapper.map, List.any_append] at h ⊢
  cases r.file <;> simp [h] <;> exact h

theorem regions_foldl_no_overlay (sid pid : String) (pidNum : Int)
    (mapper : DefaultMemoryMapper) :
    ∀ (values : List RegionRecord) (acc : List TraceOp × List String),
      hasOverlayOp acc.1 = false →
      hasOverlayOp (values.foldl (put_regions_step sid pid pidNum mapper) acc).1 = false := by
  intro values
  induction values with
  | nil => intro acc h; simpa using h
  | cons r rs ih =>
    intro acc h
    exact ih _ (regions_step_preserves sid pid pidNum mapper acc r h)

/-! ### The claims -/

/-- C1: the claim states that every synchronization callback passes to the
enclosing container exactly the element keys it wrote, with one
`retain_values` per container per invocation.  Evaluating
`put_loaded_classes_callback` on one class named C with one method m shows
the source violates this: the Methods container of the class is retained
with the empty list even though the method element key was written, and the
Classes container is retained with the method key in addition to the class
key. -/
theorem claim_C1_loaded_classes_retention :
    elementKeysWritten (put_loaded_classes_callback "local" "1234"
      [⟨some "C", none, some ["m"]⟩]) (METHODS_PATTERN "local" "1234" "C") = ["[m]"] ∧
    retainsOf (put_loaded_classes_callback "local" "1234"
      [⟨some "C", none, some ["m"]⟩]) (METHODS_PATTERN "local" "1234" "C") = [[]] ∧
    elementKeysWritten (put_loaded_classes_callback "local" "1234"
      [⟨some "C", none, some ["m"]⟩]) (CLASSES_PATTERN "local" "1234") = ["[C]"] ∧
    retainsOf (put_loaded_classes_callback "local" "1234"
      [⟨some "C", none, some ["m"]⟩]) (CLASSES_PATTERN "local" "1234") = [["[C]", "[m]"]] ∧
    ([[]] : List (List String)) ≠ [["[m]"]] ∧
    ([["[C]", "[m]"]] : List (List String)) ≠ [["[C]"]] := by decide

/-- C2: for the flat default memory mapper (default space ram), mapping a
raw offset and mapping the produced address back recovers the offset, and
mapping back any address of a different space raises `ValueError` instead
of returning an offset. -/
theorem claim_C2_flat_roundtrip (pid x : Int) (a : Address) (h : a.space ≠ "ram") :
    DEFAULT_MEMORY_MAPPER.map_back pid (DEFAULT_MEMORY_MAPPER.map pid x).2 = .ok x ∧
    exceptIsError (DEFAULT_MEMORY_MAPPER.map_back pid a) = true := by
  constructor
  · rfl
  · have hb : (a.space == "ram") = false := beq_eq_false_iff_ne.mpr h
    simp [DefaultMemoryMapper.map_back, DEFAULT_MEMORY_MAPPER, hb, exceptIsError]

theorem claim_C2_witness :
    DEFAULT_MEMORY_MAPPER.map_back 0 (DEFAULT_MEMORY_MAPPER.map 0 5).2 = .ok 5 ∧
    exceptIsError (DEFAULT_MEMORY_MAPPER.map_back 0 ⟨"register", 7⟩) = true :=
  claim_C2_flat_roundtrip 0 5 ⟨"register", 7⟩ (by decide)

/-- C3 counterexample: the claim quantifies over every key of the table and
both endiannesses, but for the table key i386 with endianness big no
candidate matches, and `compute_ghidra_language` returns the DATA fallback,
which is not a candidate from that key_s list. -/
theorem claim_C3_counterexample :
    compute_ghidra_language "auto" "i386" "big" = "DATA:BE:64:default" ∧
    ("i386", ["x86:LE:32:default"]) ∈ language_map ∧
    "DATA:BE:64:default" ∉ (["x86:LE:32:default"] : List String) := by decide

set_option maxRecDepth 8192 in
/-- C3 (amended): for every key of the static table and endianness big or
little such that at least one candidate of that entry carries the matching
endianness tag, the resolver returns a candidate from that entry whose tag
matches, ranked top by the sort key (default-tagged first, then shorter),
and when default-tagged matches exist the result is default-tagged of
minimal length among them. -/
theorem claim_C3_ranked_candidate : ∀ p ∈ language_map, ∀ endian ∈ (["big", "little"] : List String),
    p.2.filter (fun l => pyIn (lebeOf endian) l) ≠ [] →
    (compute_ghidra_language "auto" p.1 endian ∈ p.2 ∧
     pyIn (lebeOf endian) (compute_ghidra_language "auto" p.1 endian) = true ∧
     (∀ c ∈ p.2.filter (fun l => pyIn (lebeOf endian) l),
        langSortKey (compute_ghidra_language "auto" p.1 endian) ≤ langSortKey c) ∧
     ((∃ d ∈ p.2.filter (fun l => pyIn (lebeOf endian) l), pyEnds ":default" d = true) →
        pyEnds ":default" (compute_ghidra_language "auto" p.1 endian) = true ∧
        ∀ d ∈ p.2.filter (fun l => pyIn (lebeOf endian) l),
          pyEnds ":default" d = true →
          (compute_ghidra_language "auto" p.1 endian).length ≤ d.length)) := by decide

theorem claim_C3_witness :
    compute_ghidra_language "auto" "x64" "little" ∈ (["x86:LE:64:default"] : List String) :=
  (claim_C3_ranked_candidate ("x64", ["x86:LE:64:default"]) (by decide)
    "little" (by decide) (by decide)).1

/-- C4: for endianness big or little, an architecture absent from the
table, or present with no candidate of the matching endianness tag,
resolves to the generic 64-bit DATA language of that endianness; and for
every architecture the resolved language carries the matching endianness
tag and never the opposite one. -/
theorem claim_C4_data_fallback : ∀ arch endian, endian = "big" ∨ endian = "little" →
    ((alistGet language_map arch = none →
        compute_ghidra_language "auto" arch endian = "DATA" ++ lebeOf endian ++ "64:default") ∧
     (∀ langs, alistGet language_map arch = some langs →
        langs.filter (fun l => pyIn (lebeOf endian) l) = [] →
        compute_ghidra_language "auto" arch endian = "DATA" ++ lebeOf endian ++ "64:default") ∧
     pyIn (lebeOf endian) (compute_ghidra_language "auto" arch endian) = true ∧
     pyIn (antiLebeOf endian) (compute_ghidra_language "auto" arch endian) = false) := by
  intro arch endian he
  have h1 : alistGet language_map arch = none →
      compute_ghidra_language "auto" arch endian = "DATA" ++ lebeOf endian ++ "64:default" := by
    intro h
    simp [compute_ghidra_language, h]
  have h2 : ∀ langs, alistGet language_map arch = some langs →
      langs.filter (fun l => pyIn (lebeOf endian) l) = [] →
      compute_ghidra_language "auto" arch endian = "DATA" ++ lebeOf endian ++ "64:default" := by
    intro langs h hf
    simp [compute_ghidra_language, h, hf, pySorted]
  refine ⟨h1, h2, ?_⟩
  cases hcase : alistGet language_map arch with
  | none =>
    rw [h1 hcase]
    rcases he with rfl | rfl <;> exact ⟨by decide, by decide⟩
  | some langs =>
    exact table_lang_endian_ok (arch, langs) (alistGet_mem _ _ _ hcase) endian
      (by rcases he with rfl | rfl <;> simp)

theorem claim_C4_witness :
    compute_ghidra_language "auto" "frida-unknown-arch" "big" =
      "DATA" ++ lebeOf "big" ++ "64:default" :=
  (claim_C4_data_fallback "frida-unknown-arch" "big" (Or.inl rfl)).1 (by decide)

/-- C5: with no overrides, raw architecture x64 with little endianness
resolves to the x86 64-bit default language, whose compiler resolves to
windows for OS/ABI windows and to gcc for OS/ABI linux. -/
theorem claim_C5_x64_resolution :
    compute_ghidra_language "auto" "x64" "little" = "x86:LE:64:default" ∧
    compute_ghidra_compiler "auto" (some "windows") "x86:LE:64:default" = "windows" ∧
    compute_ghidra_compiler "auto" (some "linux") "x86:LE:64:default" = "gcc" := by decide

set_option maxRecDepth 8192 in
/-- C6: on the x86-64 register mapper, efl does map to rflags and zmm3 to
ymm3, but the claimed low-32-byte truncation of wide zmm values never
happens: the base conversion is 8-byte `to_bytes`, so any value wider than
8 bytes (in particular wider than 32 bytes, such as 2 to the 256) raises
`ValueError`, and every successful `map_value` result holds exactly 8
bytes, so the length-over-32 truncation branch is unreachable. -/
theorem claim_C6_zmm_truncation_dead :
    Intel_x86_64_RegisterMapper.map_name 0 (some "efl") = "rflags" ∧
    Intel_x86_64_RegisterMapper.map_name 0 (some "zmm3") = "ymm3" ∧
    exceptIsError (Intel_x86_64_RegisterMapper.map_value 0 (some "zmm3") (2 ^ 256)) = true ∧
    exceptIsError (Intel_x86_64_RegisterMapper.map_value 0 (some "zmm3") (2 ^ 64)) = true ∧
    (∀ (pid : Int) (nm : Option String) (v : Int) (rv : RegVal),
       Intel_x86_64_RegisterMapper.map_value pid nm v = .ok rv → rv.value.length = 8) := by
  refine ⟨by decide, by decide, by decide, by decide, ?_⟩
  intro pid nm v rv h
  unfold Intel_x86_64_RegisterMapper.map_value at h
  unfold DefaultRegisterMapper.map_value_with at h
  by_cases hc : 0 ≤ v ∧ v < 2 ^ 64
  · rw [if_pos hc] at h
    have hlen : (toBytesBE 8 v.toNat).length = 8 := by simp [toBytesBE]
    simp only [] at h
    split at h
    · rename_i hcc
      exact absurd (hlen ▸ hcc.2) (by norm_num)
    · cases h
      exact hlen
  · rw [if_neg hc] at h
    simp at h

theorem claim_C6_witness :
    (RegVal.mk "ymm3" [0, 0, 0, 0, 0, 0, 0, 5]).value.length = 8 :=
  claim_C6_zmm_truncation_dead.2.2.2.2 0 (some "zmm3") 5
    ⟨"ymm3", [0, 0, 0, 0, 0, 0, 0, 5]⟩ (by rfl)

/-- C7: for every canonical language id (an id carrying an endianness
tag), `compute_register_mapper` returns the registered instance when the id
is a key of the static register-mapper table, otherwise the generic
big-endian default when the id contains the BE tag and the little-endian
default when it contains the LE tag, and the lookup never raises. -/
theorem claim_C7_register_mapper_selection :
    ∀ lang, pyIn ":BE:" lang = true ∨ pyIn ":LE:" lang = true →
    ((∀ m, alistGet register_mappers lang = some m →
        compute_register_mapper lang = .ok m) ∧
     (alistGet register_mappers lang = none → pyIn ":BE:" lang = true →
        compute_register_mapper lang = .ok DEFAULT_BE_REGISTER_MAPPER) ∧
     (alistGet register_mappers lang = none → pyIn ":BE:" lang = false →
        pyIn ":LE:" lang = true →
        compute_register_mapper lang = .ok DEFAULT_LE_REGISTER_MAPPER) ∧
     exceptIsError (compute_register_mapper lang) = false) := by
  intro lang h
  refine ⟨?_, ?_, ?_, ?_⟩
  · intro m hm; simp [compute_register_mapper, hm]
  · intro hn hbe; simp [compute_register_mapper, hn, hbe]
  · intro hn hbe hle; simp [compute_register_mapper, hn, hbe, hle]
  · cases hc : alistGet register_mappers lang with
    | some m => simp [compute_register_mapper, hc, exceptIsError]
    | none =>
      rcases h with hbe | hle
      · simp [compute_register_mapper, hc, hbe, exceptIsError]
      · by_cases hbe : pyIn ":BE:" lang = true
        · simp [compute_register_mapper, hc, hbe, exceptIsError]
        · simp only [Bool.not_eq_true] at hbe
          simp [compute_register_mapper, hc, hbe, hle, exceptIsError]

theorem claim_C7_witness :
    compute_register_mapper "MIPS:BE:32:default" = .ok DEFAULT_BE_REGISTER_MAPPER :=
  (claim_C7_register_mapper_selection "MIPS:BE:32:default"
    (Or.inl (by decide))).2.1 (by decide) (by decide)

/-- C8: every trace-mutating put command checks the open transaction
first: with no transaction it raises the No transaction error and performs
no query and no store mutation. -/
theorem claim_C8_no_transaction_guard : ∀ st : SyncState, st.tx = none →
    ((∀ sid pid pidNum mapper values,
        ghidra_trace_put_regions st sid pid pidNum mapper values = .error "No transaction") ∧
     (∀ sid pid pidNum mapper values,
        ghidra_trace_put_modules st sid pid pidNum mapper values = .error "No transaction") ∧
     (∀ sid pid pidNum rmapper values,
        ghidra_trace_put_threads st sid pid pidNum rmapper values = .error "No transaction") ∧
     (∀ address length,
        ghidra_trace_putmem st address length = .error "No transaction") ∧
     ghidra_trace_putreg st = .error "No transaction") := by
  intro st h
  have hreq : require_tx st = .error "No transaction" := by simp [require_tx, h]
  refine ⟨?_, ?_, ?_, ?_, ?_⟩ <;>
    intros <;>
    simp [ghidra_trace_put_regions, ghidra_trace_put_modules,
          ghidra_trace_put_threads, ghidra_trace_putmem, ghidra_trace_putreg, hreq]

theorem claim_C8_witness :
    ghidra_trace_putreg ⟨some (), some (), none⟩ = .error "No transaction" :=
  (claim_C8_no_transaction_guard ⟨some (), some (), none⟩ rfl).2.2.2.2

/-- C9: the claim states that `map_name_back` inverts the alias renames of
`map_name` and is the identity elsewhere.  Evaluating the code: the forward
map sends efl to rflags, but `map_name_back` sends rflags to eflags (not
efl), and sends every other name, such as rax, to Python None rather than
returning it unchanged. -/
theorem claim_C9_map_name_back :
    Intel_x86_64_RegisterMapper.map_name 0 (some "efl") = "rflags" ∧
    Intel_x86_64_RegisterMapper.map_name_back 0 "rflags" = some "eflags" ∧
    Intel_x86_64_RegisterMapper.map_name_back 0 "rflags" ≠ some "efl" ∧
    Intel_x86_64_RegisterMapper.map_name 0 (some "rax") = "rax" ∧
    Intel_x86_64_RegisterMapper.map_name_back 0 "rax" = none ∧
    Intel_x86_64_RegisterMapper.map_name_back 0 "rax" ≠ some "rax" := by decide

/-- C10: the memory-mapper registry is empty, so every language resolves
to the single flat mapper with default space ram; `map` always returns a
base equal to the produced address space, so `map_address` and the region
synchronization emit no overlay-space creation. -/
theorem claim_C10_no_overlay : ∀ (lang : String) (pidNum offset : Int) (sid pid : String)
    (values : List RegionRecord),
    (compute_memory_mapper lang = DEFAULT_MEMORY_MAPPER ∧
     ((compute_memory_mapper lang).map pidNum offset).1 =
       ((compute_memory_mapper lang).map pidNum offset).2.space ∧
     (map_address (compute_memory_mapper lang) pidNum offset).1 = [] ∧
     hasOverlayOp (put_regions_callback sid pid pidNum
       (compute_memory_mapper lang) values) = false) := by
  intro lang pidNum offset sid pid values
  refine ⟨rfl, rfl, ?_, ?_⟩
  · simp [map_address, DefaultMemoryMapper.map]
  · have h := regions_foldl_no_overlay sid pid pidNum (compute_memory_mapper lang)
      values ([], []) (by simp [hasOverlayOp])
    simp only [put_regions_callback, hasOverlayOp, List.any_append] at h ⊢
    simp [h]

end GhidraFrida
